import Mathlib

/-!
Shallow embedding of the session-history reconciler
(`src/consumer/session/session_storage.go`) of the node repository.

The reconciler owns an Active-Session Table (Go: `sessionsActive`, a
`map[session_node.ID]History` guarded by `sync.RWMutex`) and four event
consumers that merge session lifecycle, statistics and payment events into
one `History` record per session, persisting records through the
Persistence Port (`Storer` with `Store` / `Update` / `GetAllFrom` on the
bucket `session-history`).

Modelling conventions:
* Byte counters, token amounts and timestamps are `Nat` (timestamp `0` is
  Go's unset zero time; `UTC()` is the identity on this abstract clock).
* `repo.timeGetter().UTC()` is passed to each handler as an explicit `now`
  argument.
* The Go map is an association list `List (String × History)`; a session ID
  is a `String`.
* The durable store is the list of records of the `session-history` bucket.
  A successful `Store` inserts (appends); a successful `Update` upserts by
  the `SessionID` key (spec interface contract of the Persistence Port).
  Whether a persistence call succeeds is decided by the external engine and
  is modelled by an explicit `Bool` outcome argument.
* Each handler returns the new state together with the list of Persistence
  Port calls it attempted (successful or not), so that theorems can speak
  about "no durable call was made".
-/

namespace SessionStorage

/-- Modelled from the spec: the `Direction` enum of the `History` record
({Provider, Consumer}); the `History` type itself is declared outside the
given sources (`DirectionProvider` / `DirectionConsumer` constants). -/
inductive Direction where
  | provider
  | consumer
deriving DecidableEq

/-- Modelled from the spec: the `Status` enum of the `History` record
({New, Completed}); `unset` is the Go zero value a record carries before a
create or end transition first touches it (the spec: "the in-memory stage
prior to first persistence has no external status"). -/
inductive Status where
  | unset
  | new
  | completed
deriving DecidableEq

/-- Modelled from the spec: the `History` record (spec §3).  The type is
declared outside the given sources; its fields are fixed by §3 and by the
field accesses in `session_storage.go`. -/
structure History where
  sessionID : String
  direction : Direction
  consumerID : String
  accountantID : String
  providerID : String
  serviceType : String
  providerCountry : String
  dataSent : Nat
  dataReceived : Nat
  tokens : Nat
  status : Status
  started : Nat
  updated : Nat
deriving DecidableEq

/-- Proposal metadata reached from session info
(`Proposal.ProviderID`, `Proposal.ServiceType`,
`Proposal.ServiceDefinition.GetLocation().Country` flattened to `country`). -/
structure Proposal where
  providerID : String
  serviceType : String
  country : String
deriving DecidableEq

/-- The embedded session info of connection-level events
(`e.SessionInfo`): only the fields the consumers read. -/
structure SessionInfo where
  sessionID : String
  consumerID : String
  accountantID : String
  proposal : Proposal
  startedAt : Nat
deriving DecidableEq

/-- `connection.Statistics` as read by the statistics consumer:
absolute cumulative byte counters. -/
structure ConnStats where
  bytesSent : Nat
  bytesReceived : Nat
deriving DecidableEq

/-- `connection.AppEventConnectionStatistics`. -/
structure AppEventConnectionStatistics where
  sessionInfo : SessionInfo
  stats : ConnStats
deriving DecidableEq

/-- The paid invoice carried by `pingpong_event.AppEventInvoicePaid`:
the cumulative agreement total. -/
structure Invoice where
  agreementTotal : Nat
deriving DecidableEq

/-- `pingpong_event.AppEventInvoicePaid`. -/
structure AppEventInvoicePaid where
  sessionID : String
  invoice : Invoice
deriving DecidableEq

/-- Status tag of `connection.AppEventConnectionSession`
(`SessionCreatedStatus` / `SessionEndedStatus`). -/
inductive ConnSessionStatus where
  | created
  | ended
deriving DecidableEq

/-- `connection.AppEventConnectionSession`. -/
structure AppEventConnectionSession where
  status : ConnSessionStatus
  sessionInfo : SessionInfo
deriving DecidableEq

/-- Status tag of `session_event.AppEventSession`
(`CreatedStatus` / `RemovedStatus`; `other` covers every further value,
which the consumer ignores). -/
inductive ServiceSessionStatus where
  | created
  | removed
  | other
deriving DecidableEq

/-- `session_event.AppEventSession`. -/
structure AppEventSession where
  id : String
  status : ServiceSessionStatus
deriving DecidableEq

/-- The session instance returned by the Session Lookup Port
(`repo.currentSessions.Find`): only the fields
`consumeServiceSessionEvent` reads (`ConsumerID`, `AccountantID.Hex()`,
`Proposal`, `DataTransferred.Up` / `.Down`, `TokensEarned`,
`CreatedAt.UTC()`). -/
structure SessionInstance where
  consumerID : String
  accountantID : String
  proposal : Proposal
  dataUp : Nat
  dataDown : Nat
  tokensEarned : Nat
  createdAt : Nat
deriving DecidableEq

/-- A call attempted on the Persistence Port for the `session-history`
bucket. -/
inductive PCall where
  | store : History → PCall
  | update : History → PCall
deriving DecidableEq

/-- The mutable state of the reconciler: the Active-Session Table
(`repo.sessionsActive`) and the contents of the durable
`session-history` bucket. -/
structure State where
  sessionsActive : List (String × History)
  store : List History
deriving DecidableEq

/-- Map lookup `row, ok := repo.sessionsActive[id]`. -/
def tlookup : List (String × History) → String → Option History
  | [], _ => none
  | p :: rest, k => if p.1 = k then some p.2 else tlookup rest k

/-- Map assignment `repo.sessionsActive[id] = row` (overwrite or add). -/
def tinsert : List (String × History) → String → History → List (String × History)
  | [], k, v => [(k, v)]
  | p :: rest, k, v => if p.1 = k then (k, v) :: rest else p :: tinsert rest k v

/-- Map deletion `delete(repo.sessionsActive, id)`. -/
def terase : List (String × History) → String → List (String × History)
  | [], _ => []
  | p :: rest, k => if p.1 = k then terase rest k else p :: terase rest k

/-- Whether the bucket already has a record keyed by this session ID. -/
def containsSid : List History → String → Bool
  | [], _ => false
  | x :: rest, k => if x.sessionID = k then true else containsSid rest k

/-- Replace every record keyed by `r.sessionID` with `r`. -/
def replaceBySid : List History → History → List History
  | [], _ => []
  | x :: rest, r => (if x.sessionID = r.sessionID then r else x) :: replaceBySid rest r

/-- Durable effect of a successful `Update` call: upsert by the
`SessionID` key (Persistence Port contract, spec §6). -/
def upsert (recs : List History) (r : History) : List History :=
  if containsSid recs r.sessionID then replaceBySid recs r else recs ++ [r]

/-- `handleEndedEvent` (session_storage.go:194-214).  Under the lock: look
the session up; on a miss warn and return.  Otherwise set `Updated` to now
(UTC) and `Status` to Completed and call `Update`; on failure log and
return (table untouched), on success delete the table entry. -/
def handleEndedEvent (now : Nat) (updateOk : Bool) (s : State)
    (sessionID : String) : State × List PCall :=
  match tlookup s.sessionsActive sessionID with
  | none => (s, [])
  | some row0 =>
    let row : History := { row0 with updated := now, status := Status.completed }
    if updateOk then
      ({ sessionsActive := terase s.sessionsActive sessionID,
         store := upsert s.store row }, [PCall.update row])
    else
      (s, [PCall.update row])

/-- `handleCreatedEvent` (session_storage.go:216-235).  Under the lock:
look the session up; on a miss warn and return.  Otherwise set `Status` to
New and call `Store`; on failure log and return (table untouched), on
success write the row back into the table. -/
def handleCreatedEvent (storeOk : Bool) (s : State)
    (sessionID : String) : State × List PCall :=
  match tlookup s.sessionsActive sessionID with
  | none => (s, [])
  | some row0 =>
    let row : History := { row0 with status := Status.new }
    if storeOk then
      ({ sessionsActive := tinsert s.sessionsActive sessionID row,
         store := s.store ++ [row] }, [PCall.store row])
    else
      (s, [PCall.store row])

/-- `consumeConnectionStatisticsEvent` (session_storage.go:156-169).
Under the lock: look the session up; on a miss warn and return.  Otherwise
overwrite `DataSent` / `DataReceived` with the event's absolute counters
and write the row back.  No Persistence Port call is ever made. -/
def consumeConnectionStatisticsEvent (s : State)
    (e : AppEventConnectionStatistics) : State × List PCall :=
  match tlookup s.sessionsActive e.sessionInfo.sessionID with
  | none => (s, [])
  | some row0 =>
    let row : History :=
      { row0 with dataSent := e.stats.bytesSent,
                  dataReceived := e.stats.bytesReceived }
    ({ s with sessionsActive := tinsert s.sessionsActive e.sessionInfo.sessionID row }, [])

/-- `consumeConnectionSpendingEvent` (session_storage.go:171-192).  Under
the lock: look the session up; on a miss warn and return.  Otherwise set
`Updated` to now (UTC) and `Tokens` to the invoice's agreement total and
call `Update`; on failure log and return (table untouched), on success
write the row back into the table. -/
def consumeConnectionSpendingEvent (now : Nat) (updateOk : Bool) (s : State)
    (e : AppEventInvoicePaid) : State × List PCall :=
  match tlookup s.sessionsActive e.sessionID with
  | none => (s, [])
  | some row0 =>
    let row : History :=
      { row0 with updated := now, tokens := e.invoice.agreementTotal }
    if updateOk then
      ({ sessionsActive := tinsert s.sessionsActive e.sessionID row,
         store := upsert s.store row }, [PCall.update row])
    else
      (s, [PCall.update row])

/-- The `History` literal built by `consumeConnectionSessionEvent` on
`SessionCreatedStatus` (session_storage.go:140-149): Direction Consumer,
`DataSent`, `DataReceived`, `Tokens`, `Status` and `Updated` left at their
Go zero values. -/
def freshConsumerRecord (info : SessionInfo) : History :=
  { sessionID := info.sessionID
    direction := Direction.consumer
    consumerID := info.consumerID
    accountantID := info.accountantID
    providerID := info.proposal.providerID
    serviceType := info.proposal.serviceType
    providerCountry := info.proposal.country
    dataSent := 0
    dataReceived := 0
    tokens := 0
    status := Status.unset
    started := info.startedAt
    updated := 0 }

/-- `consumeConnectionSessionEvent` (session_storage.go:132-154).  On
`SessionEndedStatus` invoke the end transition directly; on
`SessionCreatedStatus` insert a Consumer-direction record built from the
event's embedded fields under the lock, then invoke the create
transition.  `persistOk` is the outcome of the single Persistence Port
call the invoked transition may attempt. -/
def consumeConnectionSessionEvent (now : Nat) (persistOk : Bool) (s : State)
    (e : AppEventConnectionSession) : State × List PCall :=
  match e.status with
  | ConnSessionStatus.ended => handleEndedEvent now persistOk s e.sessionInfo.sessionID
  | ConnSessionStatus.created =>
    let s1 : State :=
      { s with sessionsActive :=
          tinsert s.sessionsActive e.sessionInfo.sessionID (freshConsumerRecord e.sessionInfo) }
    handleCreatedEvent persistOk s1 e.sessionInfo.sessionID

/-- The `History` literal built by `consumeServiceSessionEvent`
(session_storage.go:108-120) from the instance the Session Lookup Port
returned: Direction Provider, transfer and earning figures taken from the
instance, `Status` and `Updated` left at their Go zero values. -/
def hydratedProviderRecord (sessionID : String) (inst : SessionInstance) : History :=
  { sessionID := sessionID
    direction := Direction.provider
    consumerID := inst.consumerID
    accountantID := inst.accountantID
    providerID := inst.proposal.providerID
    serviceType := inst.proposal.serviceType
    providerCountry := inst.proposal.country
    dataSent := inst.dataUp
    dataReceived := inst.dataDown
    tokens := inst.tokensEarned
    status := Status.unset
    started := inst.createdAt
    updated := 0 }

/-- `consumeServiceSessionEvent` (session_storage.go:99-129).  Look the
session up via the Session Lookup Port (`find`); on a miss warn and
return.  Otherwise insert/overwrite a hydrated Provider-direction record
in the table under the lock, unconditionally, and then branch on the
event status: `removed` triggers the end transition, `created` the create
transition, anything else is ignored. -/
def consumeServiceSessionEvent (find : String → Option SessionInstance)
    (now : Nat) (persistOk : Bool) (s : State)
    (e : AppEventSession) : State × List PCall :=
  match find e.id with
  | none => (s, [])
  | some inst =>
    let s1 : State :=
      { s with sessionsActive :=
          tinsert s.sessionsActive e.id (hydratedProviderRecord e.id inst) }
    match e.status with
    | ServiceSessionStatus.removed => handleEndedEvent now persistOk s1 e.id
    | ServiceSessionStatus.created => handleCreatedEvent persistOk s1 e.id
    | ServiceSessionStatus.other => (s1, [])

/-- `GetAll` (session_storage.go:89-96): delegate to the Persistence
Port's `GetAllFrom` on the `session-history` bucket; on failure return no
records and the error, otherwise exactly the bucket contents.  `readOk`
is the outcome of the bulk-read. -/
def GetAll (readOk : Bool) (s : State) : Except Unit (List History) :=
  if readOk then Except.ok s.store else Except.error ()

/-! ### Basic lemmas about the table and the store -/

theorem tlookup_tinsert_self (t : List (String × History)) (k : String)
    (v : History) : tlookup (tinsert t k v) k = some v := by
  induction t with
  | nil => simp [tinsert, tlookup]
  | cons p rest ih =>
    by_cases hp : p.1 = k
    · simp [tinsert, hp, tlookup]
    · simp [tinsert, hp, tlookup, ih]

/-- The records of the bucket keyed by a given session ID, in order. -/
def filterSid : List History → String → List History
  | [], _ => []
  | x :: rest, k =>
    if x.sessionID = k then x :: filterSid rest k else filterSid rest k

theorem filterSid_append (a b : List History) (k : String) :
    filterSid (a ++ b) k = filterSid a k ++ filterSid b k := by
  induction a with
  | nil => simp [filterSid]
  | cons x rest ih =>
    by_cases hx : x.sessionID = k
    · simp [filterSid, hx, ih]
    · simp [filterSid, hx, ih]

theorem containsSid_of_filterSid (recs : List History) (k : String)
    (q : History) (l : List History) (h : filterSid recs k = q :: l) :
    containsSid recs k = true := by
  induction recs with
  | nil => simp [filterSid] at h
  | cons x rest ih =>
    by_cases hx : x.sessionID = k
    · simp [containsSid, hx]
    · simp [filterSid, hx] at h
      simp [containsSid, hx]
      exact ih h

theorem filterSid_replaceBySid_nil (recs : List History) (r : History)
    (h : filterSid recs r.sessionID = []) :
    filterSid (replaceBySid recs r) r.sessionID = [] := by
  induction recs with
  | nil => simp [replaceBySid, filterSid]
  | cons x rest ih =>
    by_cases hx : x.sessionID = r.sessionID
    · simp [filterSid, hx] at h
    · simp [filterSid, hx] at h
      simp [replaceBySid, hx, filterSid, ih h]

theorem filterSid_replaceBySid (recs : List History) (r q : History)
    (h : filterSid recs r.sessionID = [q]) :
    filterSid (replaceBySid recs r) r.sessionID = [r] := by
  induction recs with
  | nil => simp [filterSid] at h
  | cons x rest ih =>
    by_cases hx : x.sessionID = r.sessionID
    · simp [filterSid, hx] at h
      simp [replaceBySid, hx, filterSid,
        filterSid_replaceBySid_nil rest r h.2]
    · simp [filterSid, hx] at h
      simp [replaceBySid, hx, filterSid, ih h]

theorem filterSid_upsert (recs : List History) (r q : History)
    (h : filterSid recs r.sessionID = [q]) :
    filterSid (upsert recs r) r.sessionID = [r] := by
  unfold upsert
  rw [containsSid_of_filterSid recs r.sessionID q [] h]
  simp [filterSid_replaceBySid recs r q h]

/-! ### Concrete sample values used to evaluate theorems on closed inputs -/

def sampleProposal : Proposal :=
  { providerID := "0xBB", serviceType := "wireguard", country := "LT" }

def sampleInfo : SessionInfo :=
  { sessionID := "1", consumerID := "0xAA", accountantID := "0xCC",
    proposal := sampleProposal, startedAt := 3 }

def sampleRecord : History := freshConsumerRecord sampleInfo

def sampleState : State :=
  { sessionsActive := [("1", sampleRecord)], store := [] }

def emptyState : State := { sessionsActive := [], store := [] }

def sampleStatsEvent : AppEventConnectionStatistics :=
  { sessionInfo := sampleInfo, stats := { bytesSent := 100, bytesReceived := 50 } }

def samplePaidEvent : AppEventInvoicePaid :=
  { sessionID := "1", invoice := { agreementTotal := 5 } }

/-! ### Claims -/

/-- C5: if the Persistence Port's `Update` fails during the end transition
for a session ID, the entry for that session remains in the
Active-Session Table (the whole state is untouched), so a subsequent
lookup still finds it. -/
theorem c5_update_failure_keeps_entry (now : Nat) (s : State) (sid : String)
    (row : History) (h : tlookup s.sessionsActive sid = some row) :
    (handleEndedEvent now false s sid).1 = s ∧
    tlookup (handleEndedEvent now false s sid).1.sessionsActive sid = some row := by
  constructor
  · simp [handleEndedEvent, h]
  · simp [handleEndedEvent, h]

/-- Witness for C5 at a concrete state holding session "1". -/
theorem c5_witness :
    tlookup sampleState.sessionsActive "1" = some sampleRecord ∧
    ((handleEndedEvent 7 false sampleState "1").1 = sampleState ∧
      tlookup (handleEndedEvent 7 false sampleState "1").1.sessionsActive "1"
        = some sampleRecord) :=
  ⟨by decide, c5_update_failure_keeps_entry 7 sampleState "1" sampleRecord (by decide)⟩

/-- C6: a statistics or payment event for a session ID with no entry in
the Active-Session Table leaves the state (table and durable store)
unchanged and attempts no Persistence Port call. -/
theorem c6_unknown_session_dropped (now : Nat) (updateOk : Bool) (s : State)
    (e : AppEventConnectionStatistics) (e2 : AppEventInvoicePaid)
    (h1 : tlookup s.sessionsActive e.sessionInfo.sessionID = none)
    (h2 : tlookup s.sessionsActive e2.sessionID = none) :
    consumeConnectionStatisticsEvent s e = (s, []) ∧
    consumeConnectionSpendingEvent now updateOk s e2 = (s, []) := by
  constructor
  · simp [consumeConnectionStatisticsEvent, h1]
  · simp [consumeConnectionSpendingEvent, h2]

/-- Witness for C6 on the empty table. -/
theorem c6_witness :
    tlookup emptyState.sessionsActive sampleStatsEvent.sessionInfo.sessionID = none ∧
    tlookup emptyState.sessionsActive samplePaidEvent.sessionID = none ∧
    (consumeConnectionStatisticsEvent emptyState sampleStatsEvent = (emptyState, []) ∧
      consumeConnectionSpendingEvent 7 true emptyState samplePaidEvent = (emptyState, [])) :=
  ⟨by decide, by decide,
    c6_unknown_session_dropped 7 true emptyState sampleStatsEvent samplePaidEvent
      (by decide) (by decide)⟩

/-- C7: for a payment event whose session is in the table, on `Update`
success the table entry carries `Tokens` equal to the invoice's cumulative
agreement total and `Updated` equal to the current time; on `Update`
failure the state is untouched, so the table entry is exactly the
pre-update record. -/
theorem c7_payment_success_and_failure (now : Nat) (s : State)
    (e : AppEventInvoicePaid) (row : History)
    (h : tlookup s.sessionsActive e.sessionID = some row) :
    tlookup (consumeConnectionSpendingEvent now true s e).1.sessionsActive e.sessionID
      = some { row with
          updated := now,
          tokens := e.invoice.agreementTotal } ∧
    (consumeConnectionSpendingEvent now false s e).1 = s ∧
    tlookup (consumeConnectionSpendingEvent now false s e).1.sessionsActive e.sessionID
      = some row := by
  refine ⟨?_, ?_, ?_⟩
  · simp [consumeConnectionSpendingEvent, h, tlookup_tinsert_self]
  · simp [consumeConnectionSpendingEvent, h]
  · simp [consumeConnectionSpendingEvent, h]

/-- Witness for C7 at a concrete state holding session "1". -/
theorem c7_witness :
    tlookup sampleState.sessionsActive samplePaidEvent.sessionID = some sampleRecord ∧
    (tlookup (consumeConnectionSpendingEvent 7 true sampleState samplePaidEvent).1.sessionsActive
        samplePaidEvent.sessionID
      = some { sampleRecord with
          updated := 7,
          tokens := samplePaidEvent.invoice.agreementTotal } ∧
      (consumeConnectionSpendingEvent 7 false sampleState samplePaidEvent).1 = sampleState ∧
      tlookup (consumeConnectionSpendingEvent 7 false sampleState samplePaidEvent).1.sessionsActive
        samplePaidEvent.sessionID = some sampleRecord) :=
  ⟨by decide,
    c7_payment_success_and_failure 7 sampleState samplePaidEvent sampleRecord (by decide)⟩

/-- C8: for a statistics event whose session is in the table, the consumer
overwrites `DataSent` / `DataReceived` with the event's absolute cumulative
counters, leaves every other field of the record unchanged (the new entry
is exactly the old record with only those two fields replaced), touches no
durable state, and attempts no Persistence Port call. -/
theorem c8_stats_overwrite (s : State) (e : AppEventConnectionStatistics)
    (row : History)
    (h : tlookup s.sessionsActive e.sessionInfo.sessionID = some row) :
    (consumeConnectionStatisticsEvent s e).2 = [] ∧
    (consumeConnectionStatisticsEvent s e).1.store = s.store ∧
    tlookup (consumeConnectionStatisticsEvent s e).1.sessionsActive e.sessionInfo.sessionID
      = some { row with
          dataSent := e.stats.bytesSent,
          dataReceived := e.stats.bytesReceived } := by
  refine ⟨?_, ?_, ?_⟩
  · simp [consumeConnectionStatisticsEvent, h]
  · simp [consumeConnectionStatisticsEvent, h]
  · simp [consumeConnectionStatisticsEvent, h, tlookup_tinsert_self]

/-- Witness for C8 at a concrete state holding session "1". -/
theorem c8_witness :
    tlookup sampleState.sessionsActive sampleStatsEvent.sessionInfo.sessionID
      = some sampleRecord ∧
    ((consumeConnectionStatisticsEvent sampleState sampleStatsEvent).2 = [] ∧
      (consumeConnectionStatisticsEvent sampleState sampleStatsEvent).1.store
        = sampleState.store ∧
      tlookup (consumeConnectionStatisticsEvent sampleState sampleStatsEvent).1.sessionsActive
          sampleStatsEvent.sessionInfo.sessionID
        = some { sampleRecord with
            dataSent := 100,
            dataReceived := 50 }) :=
  ⟨by decide, c8_stats_overwrite sampleState sampleStatsEvent sampleRecord (by decide)⟩

/-- C9: `GetAll` is a function of the durable bucket only — replacing the
Active-Session Table changes nothing; on bulk-read success it returns
exactly the bucket contents, on failure no records and the error; an
in-memory entry that is not in the bucket is absent from any successful
result. -/
theorem c9_getall_bypasses_table (s : State) (t : List (String × History))
    (k : String) (r : History) (readOk : Bool)
    (ht : tlookup s.sessionsActive k = some r) (hr : r ∉ s.store) :
    GetAll readOk { s with sessionsActive := t } = GetAll readOk s ∧
    GetAll true s = Except.ok s.store ∧
    GetAll false s = Except.error () ∧
    ∀ l, GetAll true s = Except.ok l → r ∉ l := by
  refine ⟨rfl, rfl, rfl, ?_⟩
  intro l hl
  have hs : s.store = l := by simpa [GetAll] using hl
  exact hs ▸ hr

/-- Witness for C9: session "1" is cached but not yet persisted, so it is
invisible to `GetAll`. -/
theorem c9_witness :
    tlookup sampleState.sessionsActive "1" = some sampleRecord ∧
    sampleRecord ∉ sampleState.store ∧
    (GetAll true { sampleState with sessionsActive := [] } = GetAll true sampleState ∧
      GetAll true sampleState = Except.ok sampleState.store ∧
      GetAll false sampleState = Except.error () ∧
      ∀ l, GetAll true sampleState = Except.ok l → sampleRecord ∉ l) :=
  ⟨by decide, by decide,
    c9_getall_bypasses_table sampleState [] "1" sampleRecord true (by decide) (by decide)⟩

/-- C10: a connection-level created event inserts a Consumer-direction
record whose `DataSent`, `DataReceived`, `Tokens` are zero and whose
`Updated` timestamp is the unset zero time, and the create transition it
triggers persists exactly that record via `Store` with only `Status` set
to New. -/
theorem c10_created_persists_zeroed_record (now : Nat) (s : State)
    (info : SessionInfo) :
    (consumeConnectionSessionEvent now true s
        { status := ConnSessionStatus.created, sessionInfo := info }).2
      = [PCall.store { freshConsumerRecord info with status := Status.new }] ∧
    (consumeConnectionSessionEvent now true s
        { status := ConnSessionStatus.created, sessionInfo := info }).1.store
      = s.store ++ [{ freshConsumerRecord info with status := Status.new }] ∧
    (freshConsumerRecord info).direction = Direction.consumer ∧
    (freshConsumerRecord info).dataSent = 0 ∧
    (freshConsumerRecord info).dataReceived = 0 ∧
    (freshConsumerRecord info).tokens = 0 ∧
    (freshConsumerRecord info).updated = 0 := by
  refine ⟨?_, ?_, rfl, rfl, rfl, rfl, rfl⟩
  · simp [consumeConnectionSessionEvent, handleCreatedEvent, tlookup_tinsert_self]
  · simp [consumeConnectionSessionEvent, handleCreatedEvent, tlookup_tinsert_self]

/-! ### Locking discipline

The consumers guard the Active-Session Table with `repo.mu`, a
reader/writer lock (`sync.RWMutex`).  Each consumer's success path (lookup
hit, persistence call succeeding) is embedded as the sequence of its
lock operations, table accesses and Persistence Port calls, read off the
source line by line; the failure paths are prefixes of these sequences
followed by the release. -/

/-- Mode in which `repo.mu` is held: not held, shared (`RLock`) or
exclusive (`Lock`). -/
inductive LockMode where
  | freeMode
  | reader
  | writer
deriving DecidableEq

/-- An atomic action relevant to the locking discipline. -/
inductive Act where
  | acquire : LockMode → Act
  | release : Act
  | tableRead : Act
  | tableWrite : Act
  | persistCall : Act
deriving DecidableEq

/-- Success-path trace of `handleEndedEvent` (session_storage.go:194-214):
`mu.RLock()` (with deferred `mu.RUnlock()`), map lookup, `storage.Update`,
`delete(repo.sessionsActive, sessionID)`. -/
def handleEndedEventActs : List Act :=
  [Act.acquire LockMode.reader, Act.tableRead, Act.persistCall,
   Act.tableWrite, Act.release]

/-- Success-path trace of `handleCreatedEvent` (session_storage.go:216-235):
`mu.Lock()` (with deferred `mu.Unlock()`), map lookup, `storage.Store`,
map assignment. -/
def handleCreatedEventActs : List Act :=
  [Act.acquire LockMode.writer, Act.tableRead, Act.persistCall,
   Act.tableWrite, Act.release]

/-- Success-path trace of `consumeConnectionStatisticsEvent`
(session_storage.go:156-169): `mu.Lock()` (with deferred `mu.Unlock()`),
map lookup, map assignment. -/
def consumeConnectionStatisticsEventActs : List Act :=
  [Act.acquire LockMode.writer, Act.tableRead, Act.tableWrite, Act.release]

/-- Success-path trace of `consumeConnectionSpendingEvent`
(session_storage.go:171-192): `mu.Lock()` (with deferred `mu.Unlock()`),
map lookup, `storage.Update`, map assignment. -/
def consumeConnectionSpendingEventActs : List Act :=
  [Act.acquire LockMode.writer, Act.tableRead, Act.persistCall, Act.tableWrite, Act.release]

/-- Trace of `consumeServiceSessionEvent` (session_storage.go:99-129) up to
the status branch: `mu.Lock()`, map assignment, `mu.Unlock()`; the branch
then runs one of the transition traces. -/
def consumeServiceSessionEventActs (branch : List Act) : List Act :=
  [Act.acquire LockMode.writer, Act.tableWrite, Act.release] ++ branch

/-- Trace of the created branch of `consumeConnectionSessionEvent`
(session_storage.go:132-154): `mu.Lock()`, map assignment, `mu.Unlock()`,
then the create transition. -/
def consumeConnectionSessionEventCreatedActs : List Act :=
  [Act.acquire LockMode.writer, Act.tableWrite, Act.release] ++ handleCreatedEventActs

/-- Every table access in the trace happens while the reader/writer lock
is held in some mode (the first argument is the mode currently held). -/
def underSomeLock : LockMode → List Act → Bool
  | _, [] => true
  | _, Act.acquire m :: rest => underSomeLock m rest
  | _, Act.release :: rest => underSomeLock LockMode.freeMode rest
  | m, Act.tableRead :: rest =>
    if m = LockMode.freeMode then false else underSomeLock m rest
  | m, Act.tableWrite :: rest =>
    if m = LockMode.freeMode then false else underSomeLock m rest
  | m, Act.persistCall :: rest => underSomeLock m rest

/-- Every table read happens under the lock and every table write happens
under the exclusive (writer) mode — the discipline a read-modify-write
sequence on a reader/writer-locked map requires. -/
def rmwDiscipline : LockMode → List Act → Bool
  | _, [] => true
  | _, Act.acquire m :: rest => rmwDiscipline m rest
  | _, Act.release :: rest => rmwDiscipline LockMode.freeMode rest
  | m, Act.tableRead :: rest =>
    if m = LockMode.freeMode then false else rmwDiscipline m rest
  | m, Act.tableWrite :: rest =>
    if m = LockMode.writer then rmwDiscipline m rest else false
  | m, Act.persistCall :: rest => rmwDiscipline m rest

/-- C3 (evaluation of the code at the failing point): every table access
of every consumer happens with the reader/writer lock held in some mode,
and every consumer except the end transition holds the exclusive writer
lock for its whole read-modify-write sequence; `handleEndedEvent`,
however, runs its lookup, `Update` call and `delete` under `mu.RLock` —
the shared reader mode — so its map deletion is a table write performed
without the exclusive lock. -/
theorem c3_end_transition_deletes_under_read_lock :
    underSomeLock LockMode.freeMode handleEndedEventActs = true ∧
    underSomeLock LockMode.freeMode
      (consumeServiceSessionEventActs handleEndedEventActs) = true ∧
    underSomeLock LockMode.freeMode
      (consumeServiceSessionEventActs handleCreatedEventActs) = true ∧
    underSomeLock LockMode.freeMode consumeConnectionSessionEventCreatedActs = true ∧
    underSomeLock LockMode.freeMode consumeConnectionStatisticsEventActs = true ∧
    underSomeLock LockMode.freeMode consumeConnectionSpendingEventActs = true ∧
    rmwDiscipline LockMode.freeMode handleCreatedEventActs = true ∧
    rmwDiscipline LockMode.freeMode consumeConnectionStatisticsEventActs = true ∧
    rmwDiscipline LockMode.freeMode consumeConnectionSpendingEventActs = true ∧
    rmwDiscipline LockMode.freeMode consumeConnectionSessionEventCreatedActs = true ∧
    rmwDiscipline LockMode.freeMode
      (consumeServiceSessionEventActs handleCreatedEventActs) = true ∧
    rmwDiscipline LockMode.freeMode handleEndedEventActs = false := by
  decide

/-! ### Duplicate end events (C4) -/

def sampleInstance : SessionInstance :=
  { consumerID := "0xAA", accountantID := "0xCC", proposal := sampleProposal,
    dataUp := 7, dataDown := 9, tokensEarned := 2, createdAt := 3 }

/-- A Session Lookup Port that still finds every session. -/
def sampleFind : String → Option SessionInstance := fun _ => some sampleInstance

/-- A Session Lookup Port that finds no session. -/
def missFind : String → Option SessionInstance := fun _ => none

/-- The state after the end transition for session "1" succeeded on
`sampleState`. -/
def afterEnd : State :=
  (consumeConnectionSessionEvent 5 true sampleState
    { status := ConnSessionStatus.ended, sessionInfo := sampleInfo }).1

/-- C4 is false as stated: after the end transition for session "1"
succeeded (the first delivery made its `Update` and the table entry is
gone), a duplicate service-level removed event still issues a second
`Update` call, because `consumeServiceSessionEvent` re-hydrates the table
entry from the Session Lookup Port before branching on the status. -/
theorem c4_counterexample :
    tlookup afterEnd.sessionsActive "1" = none ∧
    (consumeServiceSessionEvent sampleFind 6 true afterEnd
        { id := "1", status := ServiceSessionStatus.removed }).2
      = [PCall.update { hydratedProviderRecord "1" sampleInstance with
          updated := 6,
          status := Status.completed }] := by
  decide

/-- C4 amended: a duplicate connection-level ended event for a session
whose end transition already succeeded (so its table entry is gone) is a
no-op — no `Update` call, state unchanged; a duplicate service-level
removed event is a no-op exactly when the Session Lookup Port no longer
finds the session — when the port still finds it, the consumer re-inserts
a hydrated record and issues a second `Update` call. -/
theorem c4_duplicate_end_noop (now now2 now3 : Nat) (ok ok2 : Bool)
    (s s2 s3 : State) (e : AppEventConnectionSession)
    (e2 e3 : AppEventSession)
    (find find2 : String → Option SessionInstance) (inst : SessionInstance)
    (he : e.status = ConnSessionStatus.ended)
    (hmiss : tlookup s.sessionsActive e.sessionInfo.sessionID = none)
    (hfind : find e2.id = none)
    (he2 : e2.status = ServiceSessionStatus.removed)
    (hfind2 : find2 e3.id = some inst)
    (he3 : e3.status = ServiceSessionStatus.removed) :
    consumeConnectionSessionEvent now ok s e = (s, []) ∧
    consumeServiceSessionEvent find now2 ok2 s2 e2 = (s2, []) ∧
    (consumeServiceSessionEvent find2 now3 true s3 e3).2
      = [PCall.update { hydratedProviderRecord e3.id inst with
          updated := now3,
          status := Status.completed }] := by
  refine ⟨?_, ?_, ?_⟩
  · simp [consumeConnectionSessionEvent, he, handleEndedEvent, hmiss]
  · simp [consumeServiceSessionEvent, hfind]
  · simp [consumeServiceSessionEvent, hfind2, he3, handleEndedEvent,
      tlookup_tinsert_self]

/-- Witness for the amended C4, reusing the state after a successful end
transition for session "1". -/
theorem c4_witness :
    ({ status := ConnSessionStatus.ended, sessionInfo := sampleInfo } :
        AppEventConnectionSession).status = ConnSessionStatus.ended ∧
    tlookup afterEnd.sessionsActive sampleInfo.sessionID = none ∧
    missFind "1" = none ∧
    ({ id := "1", status := ServiceSessionStatus.removed } :
        AppEventSession).status = ServiceSessionStatus.removed ∧
    sampleFind "1" = some sampleInstance ∧
    (consumeConnectionSessionEvent 8 true afterEnd
        { status := ConnSessionStatus.ended, sessionInfo := sampleInfo }
      = (afterEnd, []) ∧
      consumeServiceSessionEvent missFind 8 true afterEnd
        { id := "1", status := ServiceSessionStatus.removed } = (afterEnd, []) ∧
      (consumeServiceSessionEvent sampleFind 9 true afterEnd
          { id := "1", status := ServiceSessionStatus.removed }).2
        = [PCall.update { hydratedProviderRecord "1" sampleInstance with
            updated := 9,
            status := Status.completed }]) :=
  ⟨rfl, by decide, rfl, rfl, rfl,
    c4_duplicate_end_noop 8 8 9 true true afterEnd afterEnd afterEnd
      { status := ConnSessionStatus.ended, sessionInfo := sampleInfo }
      { id := "1", status := ServiceSessionStatus.removed }
      { id := "1", status := ServiceSessionStatus.removed }
      missFind sampleFind sampleInstance
      rfl (by decide) rfl rfl rfl rfl⟩

/-! ### Durable visibility before the first successful Store (C2) -/

/-- The state after a connection-level created event for session "1" whose
create transition's `Store` call failed: the record is cached in the
Active-Session Table but nothing is durably stored. -/
def afterFailedCreate : State :=
  (consumeConnectionSessionEvent 1 false emptyState
    { status := ConnSessionStatus.created, sessionInfo := sampleInfo }).1

/-- C2 is false as stated: with session "1" cached but its `Store` failed
(the durable store is empty), a payment event does cause a durable write —
`consumeConnectionSpendingEvent` issues `Update`, whose upsert makes the
record durably visible without any successful `Store`. -/
theorem c2_counterexample :
    afterFailedCreate.store = [] ∧
    tlookup afterFailedCreate.sessionsActive "1" = some sampleRecord ∧
    (consumeConnectionSpendingEvent 2 true afterFailedCreate samplePaidEvent).2
      = [PCall.update { sampleRecord with updated := 2, tokens := 5 }] ∧
    (consumeConnectionSpendingEvent 2 true afterFailedCreate samplePaidEvent).1.store
      = [{ sampleRecord with updated := 2, tokens := 5 }] := by
  decide

/-- C2 amended: statistics events mutate only the in-memory table — they
never touch the durable store and attempt no Persistence Port call — and a
payment event for a session absent from the table is a durable no-op; but
a payment event for any session present in the table issues a durable
`Update` call, even when no `Store` for that session has succeeded, so a
record can become durably visible through the payment path as well as
through the create transition's `Store`. -/
theorem c2_memory_only_before_store (s s2 s3 : State) (now now2 : Nat)
    (ok : Bool) (e : AppEventConnectionStatistics)
    (e2 e3 : AppEventInvoicePaid) (row : History)
    (hmiss : tlookup s2.sessionsActive e2.sessionID = none)
    (hhit : tlookup s3.sessionsActive e3.sessionID = some row) :
    (consumeConnectionStatisticsEvent s e).1.store = s.store ∧
    (consumeConnectionStatisticsEvent s e).2 = [] ∧
    consumeConnectionSpendingEvent now ok s2 e2 = (s2, []) ∧
    (consumeConnectionSpendingEvent now2 true s3 e3).2
      = [PCall.update { row with
          updated := now2,
          tokens := e3.invoice.agreementTotal }] := by
  refine ⟨?_, ?_, ?_, ?_⟩
  · cases h : tlookup s.sessionsActive e.sessionInfo.sessionID <;>
      simp [consumeConnectionStatisticsEvent, h]
  · cases h : tlookup s.sessionsActive e.sessionInfo.sessionID <;>
      simp [consumeConnectionStatisticsEvent, h]
  · simp [consumeConnectionSpendingEvent, hmiss]
  · simp [consumeConnectionSpendingEvent, hhit]

/-- Witness for the amended C2 on the cached-but-never-stored state. -/
theorem c2_witness :
    tlookup emptyState.sessionsActive samplePaidEvent.sessionID = none ∧
    tlookup afterFailedCreate.sessionsActive samplePaidEvent.sessionID
      = some sampleRecord ∧
    ((consumeConnectionStatisticsEvent afterFailedCreate sampleStatsEvent).1.store
        = afterFailedCreate.store ∧
      (consumeConnectionStatisticsEvent afterFailedCreate sampleStatsEvent).2 = [] ∧
      consumeConnectionSpendingEvent 2 true emptyState samplePaidEvent
        = (emptyState, []) ∧
      (consumeConnectionSpendingEvent 3 true afterFailedCreate samplePaidEvent).2
        = [PCall.update { sampleRecord with updated := 3, tokens := 5 }]) :=
  ⟨by decide, by decide,
    c2_memory_only_before_store afterFailedCreate emptyState afterFailedCreate
      2 3 true sampleStatsEvent samplePaidEvent samplePaidEvent sampleRecord
      (by decide) (by decide)⟩


/-! ### Valid-order single-session runs (C1) -/

/-- A statistics or payment event delivered between create and end for the
single session under consideration; the first component is the wall-clock
time at delivery. -/
inductive MidEv where
  | stats : Nat → Nat → Nat → MidEv
  | payment : Nat → Nat → MidEv
deriving DecidableEq

/-- Deliver one mid-sequence event for session `sid`, every persistence
call succeeding.  The statistics consumer reads nothing of the embedded
session info but the session ID, so the remaining fields are blank. -/
def applyMid (sid : String) (s : State) : MidEv → State
  | MidEv.stats _ sent recv =>
    (consumeConnectionStatisticsEvent s
      { sessionInfo :=
          { sessionID := sid, consumerID := "", accountantID := "",
            proposal := { providerID := "", serviceType := "", country := "" },
            startedAt := 0 },
        stats := { bytesSent := sent, bytesReceived := recv } }).1
  | MidEv.payment t tok =>
    (consumeConnectionSpendingEvent t true s
      { sessionID := sid, invoice := { agreementTotal := tok } }).1

/-- Run a valid-order delivery for one session: the connection-level
create event at time `tCreate`, then the mid-sequence events, then the
connection-level end event at time `tEnd`, with every Persistence Port
call succeeding. -/
def runSession (info : SessionInfo) (tCreate : Nat) (mids : List MidEv)
    (tEnd : Nat) (s0 : State) : State :=
  (consumeConnectionSessionEvent tEnd true
    (List.foldl (applyMid info.sessionID)
      (consumeConnectionSessionEvent tCreate true s0
        { status := ConnSessionStatus.created, sessionInfo := info }).1 mids)
    { status := ConnSessionStatus.ended, sessionInfo := info }).1

/-- Last cumulative bytes-sent figure delivered before the end event;
`acc` is the figure already in the record. -/
def lastSent : Nat → List MidEv → Nat
  | acc, [] => acc
  | _, MidEv.stats _ sent _ :: rest => lastSent sent rest
  | acc, MidEv.payment _ _ :: rest => lastSent acc rest

/-- Last cumulative bytes-received figure delivered before the end event. -/
def lastReceived : Nat → List MidEv → Nat
  | acc, [] => acc
  | _, MidEv.stats _ _ recv :: rest => lastReceived recv rest
  | acc, MidEv.payment _ _ :: rest => lastReceived acc rest

/-- Last cumulative agreement total delivered before the end event. -/
def lastTokens : Nat → List MidEv → Nat
  | acc, [] => acc
  | acc, MidEv.stats _ _ _ :: rest => lastTokens acc rest
  | _, MidEv.payment _ tok :: rest => lastTokens tok rest

/-- The record `handleCreatedEvent` stores for a connection-level created
event. -/
def storedConsumerRecord (info : SessionInfo) : History :=
  { freshConsumerRecord info with status := Status.new }

/-- The record after the statistics consumer's overwrite. -/
def withStats (r : History) (sent recv : Nat) : History :=
  { r with dataSent := sent, dataReceived := recv }

/-- The record after the payment consumer's mutation. -/
def withPayment (r : History) (t tok : Nat) : History :=
  { r with updated := t, tokens := tok }

/-- The record the end transition persists. -/
def withEnded (r : History) (t : Nat) : History :=
  { r with updated := t, status := Status.completed }

/-- The state after a successful connection-level create event. -/
def afterCreate (info : SessionInfo) (s : State) : State :=
  { sessionsActive :=
      tinsert (tinsert s.sessionsActive info.sessionID (freshConsumerRecord info))
        info.sessionID (storedConsumerRecord info),
    store := s.store ++ [storedConsumerRecord info] }

theorem filterSid_upsert_key (recs : List History) (r q : History)
    (k : String) (hk : r.sessionID = k) (h : filterSid recs k = [q]) :
    filterSid (upsert recs r) k = [r] := by
  subst hk
  exact filterSid_upsert recs r q h

theorem createStage (t : Nat) (s : State) (info : SessionInfo) :
    (consumeConnectionSessionEvent t true s
        { status := ConnSessionStatus.created, sessionInfo := info }).1
      = afterCreate info s := by
  simp [consumeConnectionSessionEvent, handleCreatedEvent, tlookup_tinsert_self,
    afterCreate, storedConsumerRecord]

theorem endStage (t : Nat) (s : State) (info : SessionInfo) (r : History)
    (h : tlookup s.sessionsActive info.sessionID = some r) :
    (consumeConnectionSessionEvent t true s
        { status := ConnSessionStatus.ended, sessionInfo := info }).1
      = { sessionsActive := terase s.sessionsActive info.sessionID,
          store := upsert s.store (withEnded r t) } := by
  simp [consumeConnectionSessionEvent, handleEndedEvent, h, withEnded]

/-- Invariant carried through the mid-sequence events: the table keeps one
record for the session whose data and token figures track the last
delivered values, its status stays New, and the bucket keeps exactly one
record keyed by the session. -/
theorem midFold_invariant (sid : String) (mids : List MidEv) :
    ∀ (s : State) (r : History),
      tlookup s.sessionsActive sid = some r →
      r.sessionID = sid →
      r.status = Status.new →
      (∃ q, filterSid s.store sid = [q]) →
      ∃ r2, tlookup (List.foldl (applyMid sid) s mids).sessionsActive sid = some r2 ∧
        r2.sessionID = sid ∧
        r2.status = Status.new ∧
        r2.dataSent = lastSent r.dataSent mids ∧
        r2.dataReceived = lastReceived r.dataReceived mids ∧
        r2.tokens = lastTokens r.tokens mids ∧
        ∃ q2, filterSid (List.foldl (applyMid sid) s mids).store sid = [q2] := by
  induction mids with
  | nil =>
    intro s r h1 h2 h3 h4
    exact ⟨r, h1, h2, h3, rfl, rfl, rfl, h4⟩
  | cons e rest ih =>
    intro s r h1 h2 h3 h4
    cases e with
    | stats t sent recv =>
      have hs : applyMid sid s (MidEv.stats t sent recv) =
          { s with sessionsActive := tinsert s.sessionsActive sid (withStats r sent recv) } := by
        simp [applyMid, consumeConnectionStatisticsEvent, h1, withStats]
      rw [List.foldl_cons, hs]
      have hmain := ih
        { s with sessionsActive := tinsert s.sessionsActive sid (withStats r sent recv) }
        (withStats r sent recv)
        (tlookup_tinsert_self _ _ _) h2 h3 h4
      simpa [lastSent, lastReceived, lastTokens, withStats] using hmain
    | payment t tok =>
      obtain ⟨q, hq⟩ := h4
      have hs : applyMid sid s (MidEv.payment t tok) =
          { sessionsActive := tinsert s.sessionsActive sid (withPayment r t tok),
            store := upsert s.store (withPayment r t tok) } := by
        simp [applyMid, consumeConnectionSpendingEvent, h1, withPayment]
      rw [List.foldl_cons, hs]
      have hstore := filterSid_upsert_key s.store (withPayment r t tok) q sid h2 hq
      have hmain := ih
        { sessionsActive := tinsert s.sessionsActive sid (withPayment r t tok),
          store := upsert s.store (withPayment r t tok) }
        (withPayment r t tok)
        (tlookup_tinsert_self _ _ _) h2 h3 ⟨_, hstore⟩
      simpa [lastSent, lastReceived, lastTokens, withPayment] using hmain

/-- C1: a valid-order delivery for a single session — create first, end
last, statistics and payment events in between, every persistence call
succeeding — leaves the durable store with exactly one record for that
session ID, with Status Completed and `DataSent` / `DataReceived` /
`Tokens` equal to the last values delivered before the end event (the
create event initialises all three to zero). -/
theorem c1_valid_sequence_final_record (info : SessionInfo)
    (tCreate tEnd : Nat) (mids : List MidEv) (s0 : State)
    (hclean : filterSid s0.store info.sessionID = []) :
    ∃ r, filterSid (runSession info tCreate mids tEnd s0).store info.sessionID = [r] ∧
      r.status = Status.completed ∧
      r.dataSent = lastSent 0 mids ∧
      r.dataReceived = lastReceived 0 mids ∧
      r.tokens = lastTokens 0 mids := by
  have hlook : tlookup (afterCreate info s0).sessionsActive info.sessionID
      = some (storedConsumerRecord info) := tlookup_tinsert_self _ _ _
  have hstore1 : filterSid (afterCreate info s0).store info.sessionID
      = [storedConsumerRecord info] := by
    show filterSid (s0.store ++ [storedConsumerRecord info]) info.sessionID = _
    rw [filterSid_append, hclean]
    simp [filterSid, storedConsumerRecord, freshConsumerRecord]
  obtain ⟨r2, hl2, hsid2, hst2, hds2, hdr2, htk2, q2, hq2⟩ :=
    midFold_invariant info.sessionID mids (afterCreate info s0)
      (storedConsumerRecord info) hlook rfl rfl ⟨_, hstore1⟩
  have hend := endStage tEnd
    (List.foldl (applyMid info.sessionID) (afterCreate info s0) mids) info r2 hl2
  have hfinal := filterSid_upsert_key
    (List.foldl (applyMid info.sessionID) (afterCreate info s0) mids).store
    (withEnded r2 tEnd) q2 info.sessionID hsid2 hq2
  refine ⟨withEnded r2 tEnd, ?_, rfl, hds2, hdr2, htk2⟩
  show filterSid (runSession info tCreate mids tEnd s0).store info.sessionID = _
  unfold runSession
  rw [createStage tCreate s0 info, hend]
  exact hfinal

/-- Witness for C1: the spec's own scenario — create, stats (100 sent, 50
received), payment (5 tokens), end — starting from the empty store. -/
theorem c1_witness :
    filterSid emptyState.store sampleInfo.sessionID = [] ∧
    ∃ r, filterSid
        (runSession sampleInfo 1 [MidEv.stats 2 100 50, MidEv.payment 3 5] 4
          emptyState).store sampleInfo.sessionID = [r] ∧
      r.status = Status.completed ∧
      r.dataSent = lastSent 0 [MidEv.stats 2 100 50, MidEv.payment 3 5] ∧
      r.dataReceived = lastReceived 0 [MidEv.stats 2 100 50, MidEv.payment 3 5] ∧
      r.tokens = lastTokens 0 [MidEv.stats 2 100 50, MidEv.payment 3 5] :=
  ⟨rfl, c1_valid_sequence_final_record sampleInfo 1 4
    [MidEv.stats 2 100 50, MidEv.payment 3 5] emptyState (by decide)⟩

end SessionStorage
